import Mathlib

/-!
Shallow embedding of the OneDrive upload backend
(`src/backend/onedrive/{upload.rs, auth.rs, mod.rs}`) and proofs about the
frozen claims C1..C10.

Modelling conventions:
* Rust `u64` byte counts become `Nat` (overflow is irrelevant on the paths
  modelled; the one place it could matter is noted at `ChunkReq.rangeEnd`).
* The remote HTTP service and the clock are an oracle (`Server`): folder
  lookups and folder creations are answered as a function of the request,
  chunk-PUT responses and clock reads as a function of the call index.
* Network effects are made explicit: every operation returns its result
  together with the list of HTTP requests it issued, in issue order.
* Rust panics (`unwrap` on `None`/`Err`) are a distinguished outcome
  `Res.panicked`, separate from the typed error outcome `Res.err`.
* The source's chunk `while` loop has no intrinsic bound (the server drives
  termination), so the loop model takes fuel; `Res.timeout` marks fuel
  exhaustion and is not a behaviour of the source.
-/

namespace UploadBackend

/-- `const MAX_FILE_LIMIT: u64 = 250 * 1024 * 1024 * 1024;` (upload.rs:13) -/
def MAX_FILE_LIMIT : Nat := 250 * 1024 * 1024 * 1024

/-- `const CHUNK_SIZE: u64 = 10 * 1024 * 1024;` (upload.rs:16) -/
def CHUNK_SIZE : Nat := 10 * 1024 * 1024

/-! ## Paths

Rust `std::path::Path` values, restricted to the syntactic operations the
source uses: `has_root`, `join`, `parent`, `file_name`, `to_string_lossy`.
A path is a root flag plus its normal components (Rust's `components()`
drops `.` segments and keeps `..` segments, so `..` may appear as a
component; `file_name()` is `None` when the last component is `..`). -/

structure RustPath where
  absolute : Bool
  comps : List String
deriving DecidableEq, Repr

/-- `Path::has_root` -/
def RustPath.hasRoot (p : RustPath) : Bool := p.absolute

/-- `Path::parent`: drops the last component; `None` for `/` and for the
empty path. -/
def RustPath.parent (p : RustPath) : Option RustPath :=
  match p.comps with
  | [] => none
  | _ => some ⟨p.absolute, p.comps.dropLast⟩

/-- `Path::file_name`: the last component, unless it is `..` or there is
none. -/
def RustPath.fileName (p : RustPath) : Option String :=
  match p.comps.getLast? with
  | none => none
  | some c => if c = ".." then none else some c

/-- `Path::join` with a relative argument appends components; with an
absolute argument it replaces the whole path. -/
def RustPath.join (base sub : RustPath) : RustPath :=
  if sub.absolute then sub else ⟨base.absolute, base.comps ++ sub.comps⟩

/-- `Path::to_string_lossy` for the paths representable here. -/
def RustPath.render (p : RustPath) : String :=
  (if p.absolute then "/" else "") ++ String.intercalate "/" p.comps

/-! ## Errors and outcomes -/

/-- The constructors of `Error` (onedrive/mod.rs:178-224) reachable from the
upload path.  `reqwest::Error` payloads are modelled by the HTTP status code
that produced them. -/
inductive Err where
  | FileTooLarge (file : String) (size : String)
  | GetParentId (path : String) (code : Nat)
  | Parsing (context : String)
  | InvalidPath (path : String)
  | CreateDir (path : String) (code : Nat)
  | CreateUploadSessionRequest (code : Nat)
  | UploadFileSessionRequest (code : Nat)
  | UploadFileSession (message : String)
  | UploadFile (code : Nat)
deriving DecidableEq, Repr

/-- Outcome of running a fallible operation: a value, a typed `Error`, a
Rust panic, or fuel exhaustion of the loop model (not a source behaviour). -/
inductive Res (α : Type) where
  | ok (a : α)
  | err (e : Err)
  | panicked (msg : String)
  | timeout
deriving DecidableEq, Repr

/-! ## HTTP requests issued by the client -/

/-- One chunk PUT (upload.rs:145-182): the seek offset applied to the
source, the `Content-Length`, the two `Content-Range` offsets and the
declared total. `rangeEnd` is `start_pos + len - 1`; with `Nat` truncated
subtraction the `len = 0, start_pos = 0` corner (a `u64` underflow panic in
the source, reachable only by seeking at/after EOF at offset 0) is not
modelled. -/
structure ChunkReq where
  seekPos : Nat
  contentLength : Nat
  rangeStart : Nat
  rangeEnd : Nat
  total : Nat
deriving DecidableEq, Repr

/-- The outbound HTTP requests of the upload path, in the shape the source
builds them. -/
inductive Request where
  | getFolder (path : RustPath)
  | postFolder (parentId : String) (name : String)
  | contentPut (parentId : String) (name : String) (bodyLen : Nat)
  | createSession (parentId : String) (name : String)
  | chunkPut (c : ChunkReq)
deriving DecidableEq, Repr

/-! ## Server / environment oracle -/

/-- Response to `GET {root-or-by-path}` (upload.rs:249-281): 200 with a
usable `id`, 200 with a body lacking one, 404, or any other status. -/
inductive GetResp where
  | okId (id : String)
  | okNoId (body : String)
  | notFound
  | other (code : Nat)
deriving DecidableEq, Repr

/-- Response to `POST .../children` (upload.rs:296-333). -/
inductive PostResp where
  | created (id : String)
  | createdNoId (body : String)
  | notFound
  | other (code : Nat)
deriving DecidableEq, Repr

/-- `createUploadSession` response body (upload.rs:49-54). -/
structure FirstSession where
  uploadUrl : String
  expiration : Int
deriving DecidableEq, Repr

/-- Chunk-PUT 202 response body (upload.rs:55-60). -/
structure UploadSession where
  nextExpectedRanges : List String
  expiration : Int
deriving DecidableEq, Repr

/-- Response to `POST .../createUploadSession` (upload.rs:209-234): only
status 200 with a parseable body succeeds. -/
inductive CreateSessionResp where
  | okSession (s : FirstSession)
  | okBadBody
  | other (code : Nat)
deriving DecidableEq, Repr

/-- Response to a chunk `PUT {uploadUrl}` (upload.rs:184-197). -/
inductive ChunkResp where
  | accepted (u : UploadSession)
  | acceptedBadBody
  | completed
  | other (code : Nat)
deriving DecidableEq, Repr

/-- The environment: folder lookups/creations answered per request, the
direct-content PUT status, the session-creation response, and — indexed by
call count — the chunk responses and the clock reads (`Utc::now()`,
modelled as an integer timestamp). -/
structure Server where
  getFolder : RustPath → GetResp
  postFolder : String → String → PostResp
  contentPutStatus : Nat
  createSession : CreateSessionResp
  chunk : Nat → ChunkResp
  now : Nat → Int

/-! ## Path resolver: `get_parent_id` / `create_folder` (upload.rs:237-334)

The source pair is mutually recursive through `Box::pin`; each recursive
call is on the parent path, so the recursion nesting is bounded by the
number of path components.  The model is fuel-indexed (structural on a
`Nat` budget) with `Res.timeout` marking fuel exhaustion; `resolverFuel`
below is proved sufficient, which is the termination argument. -/

mutual

/-- `get_parent_id` (upload.rs:237-282): `GET` the folder (the drive root
when the path renders as `/`); 200 yields its `id` (or a `Parsing` error),
404 falls through to `create_folder` on the same path, anything else is a
hard `GetParentId` error. -/
def get_parent_idF (sv : Server) : Nat → RustPath → Res String × List Request
  | 0, _ => (Res.timeout, [])
  | fuel + 1, folder =>
    let req := Request.getFolder folder
    match sv.getFolder folder with
    | GetResp.okId id => (Res.ok id, [req])
    | GetResp.okNoId body => (Res.err (Err.Parsing body), [req])
    | GetResp.notFound =>
      let (r, t) := create_folderF sv fuel folder
      (r, req :: t)
    | GetResp.other code => (Res.err (Err.GetParentId folder.render code), [req])

/-- `create_folder` (upload.rs:284-334): resolve the parent (`InvalidPath`
when there is none), `POST` the folder under it; 201 yields the new `id`
(or a `Parsing` error), 404 recurses on the parent, anything else is a hard
`CreateDir` error. -/
def create_folderF (sv : Server) : Nat → RustPath → Res String × List Request
  | 0, _ => (Res.timeout, [])
  | fuel + 1, folder =>
    match folder.parent with
    | none => (Res.err (Err.InvalidPath folder.render), [])
    | some parent =>
      match get_parent_idF sv fuel parent with
      | (Res.ok parentId, t) =>
        let name := (folder.comps.getLast?).getD ""
        let req := Request.postFolder parentId name
        match sv.postFolder parentId name with
        | PostResp.created id => (Res.ok id, t ++ [req])
        | PostResp.createdNoId body => (Res.err (Err.Parsing body), t ++ [req])
        | PostResp.notFound =>
          let (r, t2) := create_folderF sv fuel parent
          (r, t ++ req :: t2)
        | PostResp.other code =>
          (Res.err (Err.CreateDir folder.render code), t ++ [req])
      | (r, t) => (r, t)

end

/-- Fuel that `resolver_fuel_sufficient` proves large enough for a path of
this depth. -/
def resolverFuel (folder : RustPath) : Nat := 2 * folder.comps.length + 2

/-- The resolver at its sufficient fuel: the function the rest of the
client calls. -/
def get_parent_id (sv : Server) (folder : RustPath) : Res String × List Request :=
  get_parent_idF sv (resolverFuel folder) folder

/-- `calu_path` (upload.rs:336-356): reject absolute caller paths, join the
caller path beneath the configured root folder, resolve the join's parent,
and return `(parent_id, file_name)`; a join without parent or without file
name is `InvalidPath`. -/
def calu_path (sv : Server) (folderCfg : RustPath) (path : RustPath) :
    Res (String × String) × List Request :=
  if path.hasRoot then (Res.err (Err.InvalidPath path.render), [])
  else
    let joined := folderCfg.join path
    match joined.parent with
    | none => (Res.err (Err.InvalidPath joined.render), [])
    | some parent =>
      match get_parent_id sv parent with
      | (Res.ok parentId, t) =>
        match joined.fileName with
        | none => (Res.err (Err.InvalidPath joined.render), t)
        | some fileName => (Res.ok (parentId, fileName), t)
      | (Res.err e, t) => (Res.err e, t)
      | (Res.panicked m, t) => (Res.panicked m, t)
      | (Res.timeout, t) => (Res.timeout, t)

/-! ## Range-string parsing (upload.rs:127-130)

`uploading.next_expected_ranges[0].split('-').map(|s| s.parse::<u64>().unwrap())`.
A fragment that fails `u64` parsing makes the `unwrap` panic. -/

/-- Accumulate the decimal value of a digit run; `none` on the first
non-digit character. -/
def digitsVal : Nat → List Char → Option Nat
  | acc, [] => some acc
  | acc, c :: cs =>
    if c.isDigit then digitsVal (acc * 10 + (c.toNat - 48)) cs else none

/-- `str::parse::<u64>()`: optional leading `+`, then a non-empty digit
string whose value fits in 64 bits. -/
def parseU64 (s : String) : Option Nat :=
  let l := match s.toList with
           | '+' :: rest => rest
           | l => l
  match l with
  | [] => none
  | _ :: _ =>
    match digitsVal 0 l with
    | some v => if v < 2 ^ 64 then some v else none
    | none => none

/-- `str::split(sep)` on a character list: the fragments between
occurrences of `sep`; the empty input gives one empty fragment, a trailing
separator a trailing empty fragment. -/
def splitOnChar (sep : Char) : List Char → List (List Char)
  | [] => [[]]
  | c :: cs =>
    if c = sep then [] :: splitOnChar sep cs
    else
      match splitOnChar sep cs with
      | [] => [[c]]
      | g :: gs => (c :: g) :: gs

/-- `.split('-')` of the source, as a list of strings. -/
def splitDash (s : String) : List String :=
  (splitOnChar '-' s.toList).map (fun l => String.mk l)

/-- Parse every fragment; `none` models the panic of `unwrap` on the first
failing fragment. -/
def parseFrags : List String → Option (List Nat)
  | [] => some []
  | f :: fs => (parseU64 f).bind fun v => (parseFrags fs).map fun vs => v :: vs

/-- `split('-')` then parse each fragment. -/
def parseRanges (s : String) : Option (List Nat) :=
  parseFrags (splitDash s)

/-! ## Chunked session upload (upload.rs:101-198) -/

/-- Bytes actually read for one chunk (upload.rs:153-169): seek to
`start_pos`, then read until `CHUNK_SIZE` bytes or EOF.  The source stream
is modelled by its length `fileLen`. -/
def chunkLenOf (fileLen startPos : Nat) : Nat :=
  min CHUNK_SIZE (fileLen - startPos)

/-- The chunk PUT built at `start_pos` (upload.rs:154-179): seek offset,
`Content-Length`, and `Content-Range: bytes start-(start+len-1)/size`. -/
def mkChunkReq (fileLen size startPos : Nat) : ChunkReq :=
  let len := chunkLenOf fileLen startPos
  { seekPos := startPos
    contentLength := len
    rangeStart := startPos
    rangeEnd := startPos + len - 1
    total := size }

/-- `upload_session` (upload.rs:145-198): one chunk PUT; 202 returns the
parsed body, 201/200 returns `none` (transfer complete), anything else is a
hard `UploadFileSessionRequest` error.  `respIdx` indexes the server's
chunk-response stream. -/
def upload_session (sv : Server) (fileLen size startPos respIdx : Nat) :
    Res (Option UploadSession) × ChunkReq :=
  let req := mkChunkReq fileLen size startPos
  (match sv.chunk respIdx with
   | ChunkResp.accepted u => Res.ok (some u)
   | ChunkResp.acceptedBadBody => Res.err (Err.UploadFileSessionRequest 202)
   | ChunkResp.completed => Res.ok none
   | ChunkResp.other code => Res.err (Err.UploadFileSessionRequest code), req)

/-- The `while !uploading.next_expected_ranges.is_empty()` loop
(upload.rs:121-140), starting from the session state `u` produced by the
previous chunk; `clockIdx`/`respIdx` index the clock and chunk-response
streams.  Per iteration: exit `ok` when no range is outstanding; abort when
the session expiration lies before `now`; split-and-parse the first range
string (panicking on a bad fragment); send the chunk at the parsed start
offset; a 201/200 response breaks out with success, a 202 response loops
with the new state. -/
def sessionLoop (sv : Server) (fileLen size : Nat) :
    UploadSession → Nat → Nat → Nat → Res Unit × List Request
  | _, _, _, 0 => (Res.timeout, [])
  | u, clockIdx, respIdx, fuel + 1 =>
    match u.nextExpectedRanges with
    | [] => (Res.ok (), [])
    | r0 :: _ =>
      if u.expiration < sv.now clockIdx then
        (Res.err (Err.UploadFileSession "Upload session expired"), [])
      else
        match parseRanges r0 with
        | none => (Res.panicked "called Result::unwrap on an Err value", [])
        | some [] => (Res.panicked "index out of bounds", [])
        | some (start :: _) =>
          let (r, req) := upload_session sv fileLen size start respIdx
          match r with
          | Res.ok (some u') =>
            let (r', t') := sessionLoop sv fileLen size u' (clockIdx + 1) (respIdx + 1) fuel
            (r', Request.chunkPut req :: t')
          | Res.ok none => (Res.ok (), [Request.chunkPut req])
          | Res.err e => (Res.err e, [Request.chunkPut req])
          | Res.panicked m => (Res.panicked m, [Request.chunkPut req])
          | Res.timeout => (Res.timeout, [Request.chunkPut req])

/-- `create_session` (upload.rs:200-235): resolve the destination with
`calu_path`, `POST .../createUploadSession`; only status 200 with a
parseable body succeeds. -/
def create_session (sv : Server) (folderCfg path : RustPath) :
    Res FirstSession × List Request :=
  match calu_path sv folderCfg path with
  | (Res.ok (parentId, fileName), t) =>
    let req := Request.createSession parentId fileName
    (match sv.createSession with
     | CreateSessionResp.okSession s => Res.ok s
     | CreateSessionResp.okBadBody => Res.err (Err.CreateUploadSessionRequest 200)
     | CreateSessionResp.other code => Res.err (Err.CreateUploadSessionRequest code),
     t ++ [req])
  | (Res.err e, t) => (Res.err e, t)
  | (Res.panicked m, t) => (Res.panicked m, t)
  | (Res.timeout, t) => (Res.timeout, t)

/-- `upload_file_with_session` (upload.rs:101-143): create the session;
abort `UploadFileSession "Upload session expired"` when its expiration is
already past; send the first chunk at offset 0; a `None` result of the
first chunk (a 201/200 response) is turned into the same
`UploadFileSession "Upload session expired"` error by the source's
`.ok_or(..)`; otherwise run the loop on the returned state. -/
def upload_file_with_session (sv : Server) (folderCfg : RustPath)
    (fileLen size : Nat) (path : RustPath) (fuel : Nat) :
    Res Unit × List Request :=
  match create_session sv folderCfg path with
  | (Res.ok session, t0) =>
    if session.expiration < sv.now 0 then
      (Res.err (Err.UploadFileSession "Upload session expired"), t0)
    else
      let (r0, req0) := upload_session sv fileLen size 0 0
      match r0 with
      | Res.ok (some u) =>
        let (r, t) := sessionLoop sv fileLen size u 1 1 fuel
        (r, t0 ++ Request.chunkPut req0 :: t)
      | Res.ok none =>
        (Res.err (Err.UploadFileSession "Upload session expired"),
         t0 ++ [Request.chunkPut req0])
      | Res.err e => (Res.err e, t0 ++ [Request.chunkPut req0])
      | Res.panicked m => (Res.panicked m, t0 ++ [Request.chunkPut req0])
      | Res.timeout => (Res.timeout, t0 ++ [Request.chunkPut req0])
  | (Res.err e, t0) => (Res.err e, t0)
  | (Res.panicked m, t0) => (Res.panicked m, t0)
  | (Res.timeout, t0) => (Res.timeout, t0)

/-- `upload_file` (upload.rs:63-99), the direct path: resolve with
`calu_path`, read the whole source into memory, one content PUT; 201/200
succeeds, anything else is an `UploadFile` error. -/
def upload_file (sv : Server) (folderCfg : RustPath) (fileLen : Nat)
    (path : RustPath) : Res Unit × List Request :=
  match calu_path sv folderCfg path with
  | (Res.ok (parentId, fileName), t) =>
    let req := Request.contentPut parentId fileName fileLen
    (if sv.contentPutStatus = 201 ∨ sv.contentPutStatus = 200 then Res.ok ()
     else Res.err (Err.UploadFile sv.contentPutStatus),
     t ++ [req])
  | (Res.err e, t) => (Res.err e, t)
  | (Res.panicked m, t) => (Res.panicked m, t)
  | (Res.timeout, t) => (Res.timeout, t)

/-! ## Size rendering: `u64_to_size_string` (upload.rs:360-369)

The source works in `f64`: `size as f64`, `1024_f64.powi(..)` comparisons,
a division, and `format!("{:.2} {}", ..)`.  The only inexact step for a
`u64` input is the `u64 -> f64` conversion (round to nearest, ties to
even); the powers `1024^k`, `k ≤ 8`, are exact powers of two well inside
`f64` range, and dividing by one only shifts the exponent.  `{:.2}` prints
the double's exact value rounded to two decimals, ties to even.  The model
therefore rounds the input to 53 significant bits and then computes in
exact rational arithmetic. -/

/-- Number of bits of `n` (zero for zero), for inputs below `2^64`;
structural in the 64-step budget so that it evaluates in the kernel. -/
def bitLenAux : Nat → Nat → Nat
  | 0, _ => 0
  | budget + 1, n => if n = 0 then 0 else bitLenAux budget (n / 2) + 1

/-- Bit length of a `u64` value. -/
def bitLen (n : Nat) : Nat := bitLenAux 64 n

/-- `u64 as f64`: round to nearest with a 53-bit significand, ties to
even.  Exact below `2^53`. -/
def f64ofU64 (n : Nat) : Nat :=
  if n < 2 ^ 53 then n
  else
    let e := bitLen n - 53
    let q := n / 2 ^ e
    let r := n % 2 ^ e
    let half := 2 ^ (e - 1)
    let q' := if half < r ∨ (r = half ∧ q % 2 = 1) then q + 1 else q
    q' * 2 ^ e

/-- `["B", "KB", "MB", "GB", "TB", "PB", "EB", "ZB", "YB"]` -/
def sizeUnits : List String :=
  ["B", "KB", "MB", "GB", "TB", "PB", "EB", "ZB", "YB"]

/-- The `find` over enumerated units (upload.rs:363-367): the first index
`i` with `size < 1024^(i+1)`, defaulting to the last unit. -/
def unitIndex (v : Nat) : Nat :=
  ((List.range 9).find? (fun i => v < 1024 ^ (i + 1))).getD 8

/-- Nearest integer to `N / D` (`D > 0`), ties to even: the rounding
`{:.2}` applies to the double's exact value after scaling by 100. -/
def roundHalfEvenDiv (N D : Nat) : Nat :=
  let q := N / D
  let r := N % D
  if D < 2 * r then q + 1
  else if 2 * r < D then q
  else if q % 2 = 0 then q else q + 1

/-- Render `n100 / 100` with exactly two decimal places. -/
def fmt2 (n100 : Nat) : String :=
  let r := n100 % 100
  toString (n100 / 100) ++ "." ++ (if r < 10 then "0" ++ toString r else toString r)

/-- `u64_to_size_string` (upload.rs:360-369).  The scaled value
`v / 1024^i` is exact in `f64` (the division only shifts the exponent), so
`{:.2}` rounds the exact rational `v / 1024^i`, here computed as
`(v * 100) / 1024^i` rounded half-to-even. -/
def u64_to_size_string (n : Nat) : String :=
  let v := f64ofU64 n
  let i := unitIndex v
  fmt2 (roundHalfEvenDiv (v * 100) (1024 ^ i)) ++ " " ++ sizeUnits.getD i "YB"

/-- Modelled from the spec: "converts a byte count into the largest unit
(B, KB, MB, … up to YB, each a factor of 1024 above the previous) such that
the scaled value is below 1024" — i.e. the first unit whose scale bound
exceeds the exact byte count, with no float conversion.  Used only to
compare against `u64_to_size_string`'s unit choice. -/
def specSizeUnit (n : Nat) : String :=
  sizeUnits.getD (((List.range 9).find? (fun i => n < 1024 ^ (i + 1))).getD 8) "YB"

/-! ## The upload façade (upload.rs:25-47) -/

/-- `Backend::upload` for `OnedriveInner`: the size policy, then the
direct/chunked dispatch at `CHUNK_SIZE`. -/
def upload (sv : Server) (folderCfg : RustPath) (fileLen size : Nat)
    (path : RustPath) (fuel : Nat) : Res Unit × List Request :=
  if MAX_FILE_LIMIT < size then
    (Res.err (Err.FileTooLarge path.render (u64_to_size_string size)), [])
  else if size < CHUNK_SIZE then
    upload_file sv folderCfg fileLen path
  else
    upload_file_with_session sv folderCfg fileLen size path fuel

/-! ## Request counting -/

/-- Count chunk PUTs in a trace. -/
def countChunkPuts (l : List Request) : Nat :=
  l.countP (fun r => match r with | Request.chunkPut _ => true | _ => false)

/-- Count `createUploadSession` requests in a trace. -/
def countCreateSessions (l : List Request) : Nat :=
  l.countP (fun r => match r with | Request.createSession _ _ => true | _ => false)

/-- Count direct content PUTs in a trace. -/
def countContentPuts (l : List Request) : Nat :=
  l.countP (fun r => match r with | Request.contentPut _ _ _ => true | _ => false)

/-! ## Credential state (onedrive/mod.rs:18-25, auth.rs:72-93)

`OnedriveInner` holds `access_token: ArcSwap<String>`,
`refresh_token: ArcSwap<String>`, `expires_at: AtomicU64`: three separate
atomic cells.  `refresh()` (auth.rs:82-90) performs three separate stores,
in source order access token, then refresh token, then expiry.  A
concurrent reader can run between any two of them, so the observable
snapshots during one refresh are exactly the states after each prefix of
the store sequence. -/

/-- The credential snapshot a reader assembles from the three cells. -/
structure Creds where
  access : String
  refresh : String
  expiresAt : Nat
deriving DecidableEq, Repr

/-- The snapshots observable while `refresh()` replaces `old` by `new`:
before any store, after the access-token store, after the refresh-token
store, and after the expiry store (auth.rs:82-90). -/
def refreshStates (old new : Creds) : List Creds :=
  [old,
   { access := new.access, refresh := old.refresh, expiresAt := old.expiresAt },
   { access := new.access, refresh := new.refresh, expiresAt := old.expiresAt },
   new]

/-! ## Concrete instances used by witnesses and counterexamples -/

/-- A server on which only the drive root exists: the root lookup answers
an id, every other folder lookup is 404, and every folder creation is 404.
Drives the resolver into its worst-case recursion. -/
def svMissing : Server :=
  { getFolder := fun p => match p.comps with
      | [] => GetResp.okId "rootid"
      | _ => GetResp.notFound
    postFolder := fun _ _ => PostResp.notFound
    contentPutStatus := 200
    createSession := CreateSessionResp.okSession ⟨"url", 100⟩
    chunk := fun _ => ChunkResp.completed
    now := fun _ => 0 }

/-- A fully cooperative server: every lookup answers `rootid`, folder
creation succeeds, the direct PUT returns 200, the session is created with
expiration 100 against a clock stuck at 0, and every chunk PUT answers
201/200 (transfer complete). -/
def svComplete : Server :=
  { getFolder := fun _ => GetResp.okId "rootid"
    postFolder := fun _ _ => PostResp.created "newid"
    contentPutStatus := 200
    createSession := CreateSessionResp.okSession ⟨"url", 100⟩
    chunk := fun _ => ChunkResp.completed
    now := fun _ => 0 }

/-- Like `svComplete`, but the created session's expiration (-5) already
lies before the clock (0). -/
def svExpired : Server :=
  { svComplete with createSession := CreateSessionResp.okSession ⟨"url", -5⟩ }

/-- Like `svComplete`, but every chunk PUT answers an unexpected status
500. -/
def svBadChunk : Server :=
  { svComplete with chunk := fun _ => ChunkResp.other 500 }

/-- The configured root folder `/`. -/
def rootCfg : RustPath := ⟨true, []⟩

/-- A one-component relative destination path `f`. -/
def pathF : RustPath := ⟨false, ["f"]⟩

/-- Requests a resolver run may issue: folder lookups and folder
creations. -/
def isResolverReq : Request → Bool
  | Request.getFolder _ => true
  | Request.postFolder _ _ => true
  | _ => false

/-! # Auxiliary lemmas -/

theorem parseFrags_none_of_mem {l : List String} {frag : String}
    (hmem : frag ∈ l) (hfail : parseU64 frag = none) : parseFrags l = none := by
  induction l with
  | nil => cases hmem
  | cons f fs ih =>
    rcases List.mem_cons.mp hmem with h | h
    · subst h
      rw [parseFrags, hfail]
      rfl
    · rw [parseFrags, ih h]
      cases parseU64 f <;> rfl

theorem resolver_reqs (sv : Server) :
    ∀ fuel p r, (r ∈ (get_parent_idF sv fuel p).2 → isResolverReq r = true) ∧
      (r ∈ (create_folderF sv fuel p).2 → isResolverReq r = true) := by
  intro fuel
  induction fuel with
  | zero =>
    intro p r
    constructor <;> · intro h; simp [get_parent_idF, create_folderF] at h
  | succ n ih =>
    intro p r
    constructor
    · intro h
      simp only [get_parent_idF] at h
      cases hg : sv.getFolder p <;> simp [hg] at h
      · subst h; rfl
      · subst h; rfl
      · rcases h with h | h
        · subst h; rfl
        · exact (ih p r).2 h
      · subst h; rfl
    · intro h
      simp only [create_folderF] at h
      cases hp : p.parent with
      | none => simp [hp] at h
      | some parent =>
        simp only [hp] at h
        rcases hg : get_parent_idF sv n parent with ⟨res, t⟩
        simp only [hg] at h
        cases res with
        | ok parentId =>
          cases hpost : sv.postFolder parentId ((p.comps.getLast?).getD "") <;>
            simp [hpost] at h
          · rcases h with h | h
            · have := (ih parent r).1
              rw [hg] at this
              exact this h
            · subst h; rfl
          · rcases h with h | h
            · have := (ih parent r).1
              rw [hg] at this
              exact this h
            · subst h; rfl
          · rcases h with h | h | h
            · have := (ih parent r).1
              rw [hg] at this
              exact this h
            · subst h; rfl
            · exact (ih parent r).2 h
          · rcases h with h | h
            · have := (ih parent r).1
              rw [hg] at this
              exact this h
            · subst h; rfl
        | err e =>
          simp at h
          have := (ih parent r).1
          rw [hg] at this
          exact this h
        | panicked m =>
          simp at h
          have := (ih parent r).1
          rw [hg] at this
          exact this h
        | timeout =>
          simp at h
          have := (ih parent r).1
          rw [hg] at this
          exact this h

theorem parent_comps_length {p parent : RustPath} (h : p.parent = some parent) :
    parent.comps.length + 1 = p.comps.length := by
  unfold RustPath.parent at h
  cases hc : p.comps with
  | nil => rw [hc] at h; cases h
  | cons a l =>
    rw [hc] at h
    simp only [Option.some.injEq] at h
    subst h
    simp

theorem parent_of_empty {p : RustPath} (h : p.comps = []) : p.parent = none := by
  unfold RustPath.parent
  rw [h]

theorem resolver_fuel_sufficient (sv : Server) :
    ∀ fuel, (∀ p : RustPath, 2 * p.comps.length + 2 ≤ fuel →
        (get_parent_idF sv fuel p).1 ≠ Res.timeout) ∧
      (∀ p : RustPath, 2 * p.comps.length + 1 ≤ fuel →
        (create_folderF sv fuel p).1 ≠ Res.timeout) := by
  intro fuel
  induction fuel with
  | zero => exact ⟨fun p hp => by omega, fun p hp => by omega⟩
  | succ n ih =>
    constructor
    · intro p hp
      rw [get_parent_idF]
      cases hg : sv.getFolder p <;> simp
      have := ih.2 p (by omega)
      rcases hc : create_folderF sv n p with ⟨r, t⟩
      rw [hc] at this
      simpa using this
    · intro p hp
      rw [create_folderF]
      cases hpar : p.parent with
      | none => simp
      | some parent =>
        have hlen := parent_comps_length hpar
        simp only []
        have hg := ih.1 parent (by omega)
        rcases hgc : get_parent_idF sv n parent with ⟨r, t⟩
        rw [hgc] at hg
        cases r with
        | ok parentId =>
          cases hpost : sv.postFolder parentId ((p.comps.getLast?).getD "") <;> simp [hpost]
          have := ih.2 parent (by omega)
          rcases hcc : create_folderF sv n parent with ⟨r2, t2⟩
          rw [hcc] at this
          simpa using this
        | err e => simp
        | panicked m => simp
        | timeout => simp at hg
theorem resolver_trace_bound (sv : Server) :
    ∀ fuel, (∀ p : RustPath,
        (get_parent_idF sv fuel p).2.length ≤ 2 ^ (p.comps.length + 1) - 1) ∧
      (∀ p : RustPath,
        (create_folderF sv fuel p).2.length ≤ 2 ^ (p.comps.length + 1) - 2) := by
  intro fuel
  induction fuel with
  | zero =>
    constructor <;> · intro p; simp [get_parent_idF, create_folderF]
  | succ n ih =>
    constructor
    · intro p
      have hpow : 2 ≤ 2 ^ (p.comps.length + 1) := by
        have := Nat.one_le_two_pow (n := p.comps.length)
        calc 2 = 2 * 1 := by ring
        _ ≤ 2 * 2 ^ p.comps.length := by omega
        _ = 2 ^ (p.comps.length + 1) := by ring
      rw [get_parent_idF]
      cases hg : sv.getFolder p <;> simp
      · omega
      · omega
      · have := ih.2 p
        rcases hc : create_folderF sv n p with ⟨r, t⟩
        rw [hc] at this
        simp at this ⊢
        omega
      · omega
    · intro p
      rw [create_folderF]
      cases hpar : p.parent with
      | none => simp
      | some parent =>
        have hlen := parent_comps_length hpar
        have hpow : 1 ≤ 2 ^ (parent.comps.length + 1) := Nat.one_le_two_pow
        have hdouble : 2 ^ (parent.comps.length + 1) * 2 = 2 ^ (p.comps.length + 1) := by
          rw [← hlen]
          ring
        have hg := ih.1 parent
        have hcb := ih.2 parent
        rcases hgc : get_parent_idF sv n parent with ⟨r, t⟩
        rw [hgc] at hg
        simp only [hgc]
        simp at hg
        cases r with
        | ok parentId =>
          rcases hcc : create_folderF sv n parent with ⟨r2, t2⟩
          rw [hcc] at hcb
          simp at hcb
          cases hpost : sv.postFolder parentId ((p.comps.getLast?).getD "") <;>
            simp [hpost, hcc]
          · omega
          · omega
          · omega
          · omega
        | err e => simp; omega
        | panicked m => simp; omega
        | timeout => simp; omega
theorem create_folderF_no_parent (sv : Server) (fuel : Nat) {p : RustPath}
    (h : p.comps = []) :
    create_folderF sv (fuel + 1) p = (Res.err (Err.InvalidPath p.render), []) := by
  rw [create_folderF, parent_of_empty h]

theorem root_lookupF_single_request (sv : Server) (n : Nat) {p : RustPath}
    (h : p.comps = []) :
    (get_parent_idF sv (n + 2) p).2.length ≤ 1 := by
  rw [get_parent_idF]
  cases hg : sv.getFolder p
  · simp
  · simp
  · simp only []
    rw [create_folderF_no_parent sv n h]
    simp
  · simp

theorem root_lookup_single_request (sv : Server) {p : RustPath} (h : p.comps = []) :
    (get_parent_id sv p).2.length ≤ 1 := by
  unfold get_parent_id
  have hfuel : resolverFuel p = 0 + 2 := by simp [resolverFuel, h]
  rw [hfuel]
  exact root_lookupF_single_request sv 0 h

theorem counts_zero_of_resolver {l : List Request}
    (h : ∀ r ∈ l, isResolverReq r = true) :
    countChunkPuts l = 0 ∧ countCreateSessions l = 0 ∧ countContentPuts l = 0 := by
  refine ⟨?_, ?_, ?_⟩ <;>
  · apply List.countP_eq_zero.mpr
    intro r hr
    have := h r hr
    cases r <;> simp_all [isResolverReq]

theorem calu_path_reqs (sv : Server) (folderCfg path : RustPath) :
    ∀ r ∈ (calu_path sv folderCfg path).2, isResolverReq r = true := by
  intro r hr
  have key : ∀ (parent : RustPath) (res : Res String) (t : List Request),
      get_parent_id sv parent = (res, t) → r ∈ t → isResolverReq r = true := by
    intro parent res t hg hx
    have := (resolver_reqs sv (resolverFuel parent) parent r).1
    unfold get_parent_id at hg
    rw [hg] at this
    exact this hx
  unfold calu_path at hr
  split at hr
  · simp at hr
  · dsimp only [] at hr
    split at hr
    · simp at hr
    · rename_i parent hpar
      split at hr
      · rename_i parentId t hg
        split at hr
        · simp at hr
          exact key parent _ _ hg hr
        · simp at hr
          exact key parent _ _ hg hr
      · rename_i e t hg
        simp at hr
        exact key parent _ _ hg hr
      · rename_i m t hg
        simp at hr
        exact key parent _ _ hg hr
      · rename_i t hg
        simp at hr
        exact key parent _ _ hg hr
/-! # Claims -/

/-- C3: for every declared size `s > 250*1024^3` bytes, `upload` returns
the `FileTooLarge` error (carrying the human-readable size rendering)
immediately and performs zero network calls; for every
`s ≤ 250*1024^3` the size check passes and `upload` proceeds to the
direct/chunked dispatch. -/
theorem c3_size_policy (sv : Server) (folderCfg : RustPath) (fileLen size : Nat)
    (path : RustPath) (fuel : Nat) :
    (MAX_FILE_LIMIT < size →
      upload sv folderCfg fileLen size path fuel =
        (Res.err (Err.FileTooLarge path.render (u64_to_size_string size)), [])) ∧
    (size ≤ MAX_FILE_LIMIT →
      upload sv folderCfg fileLen size path fuel =
        (if size < CHUNK_SIZE then upload_file sv folderCfg fileLen path
         else upload_file_with_session sv folderCfg fileLen size path fuel)) := by
  constructor
  · intro h
    rw [upload, if_pos h]
  · intro h
    rw [upload, if_neg (by omega)]

/-- Witness for C3 at the concrete sizes `250*1024^3 + 1` (rejected with
zero requests) and `250*1024^3` (size check passes). -/
theorem c3_size_policy_witness :
    (MAX_FILE_LIMIT < MAX_FILE_LIMIT + 1 ∧
      upload svComplete rootCfg 0 (MAX_FILE_LIMIT + 1) pathF 1 =
        (Res.err (Err.FileTooLarge pathF.render
          (u64_to_size_string (MAX_FILE_LIMIT + 1))), [])) ∧
    (MAX_FILE_LIMIT ≤ MAX_FILE_LIMIT ∧
      upload svComplete rootCfg 0 MAX_FILE_LIMIT pathF 1 =
        (if MAX_FILE_LIMIT < CHUNK_SIZE then
          upload_file svComplete rootCfg 0 pathF
         else upload_file_with_session svComplete rootCfg 0 MAX_FILE_LIMIT pathF 1)) := by
  constructor
  · exact ⟨Nat.lt_succ_self _,
      (c3_size_policy svComplete rootCfg 0 (MAX_FILE_LIMIT + 1) pathF 1).1
        (Nat.lt_succ_self _)⟩
  · exact ⟨Nat.le_refl _,
      (c3_size_policy svComplete rootCfg 0 MAX_FILE_LIMIT pathF 1).2 (Nat.le_refl _)⟩

/-- C9 (amended): the unit is selected on the byte count after its
conversion to `f64`; below `2^53` the conversion is exact and the selection
agrees with the spec's exact largest-unit rule, and the three concrete
renderings hold. -/
theorem c9_size_rendering :
    (∀ n : Nat, n < 2 ^ 53 →
      sizeUnits.getD (unitIndex (f64ofU64 n)) "YB" = specSizeUnit n) ∧
    u64_to_size_string 1024 = "1.00 KB" ∧
    u64_to_size_string 2097152 = "2.00 MB" ∧
    u64_to_size_string 268435456000 = "250.00 GB" := by
  refine ⟨?_, by decide, by decide, by decide⟩
  intro n hn
  have h : f64ofU64 n = n := by rw [f64ofU64, if_pos hn]
  rw [h]
  rfl

/-- Witness for C9's general clause at `n = 1024`. -/
theorem c9_size_rendering_witness :
    (1024 : Nat) < 2 ^ 53 ∧
      sizeUnits.getD (unitIndex (f64ofU64 1024)) "YB" = specSizeUnit 1024 :=
  ⟨by norm_num, c9_size_rendering.1 1024 (by norm_num)⟩

/-- C9 counterexample: at `2^60 - 1` the `u64 -> f64` conversion rounds up
to `2^60`, so the code renders `1.00 EB`, while the claim's exact
largest-unit rule selects `PB` (the exact scaled value
`(2^60-1)/1024^5` is still below 1024). -/
theorem c9_unit_counterexample :
    u64_to_size_string (2 ^ 60 - 1) = "1.00 EB" ∧
    specSizeUnit (2 ^ 60 - 1) = "PB" ∧
    sizeUnits.getD (unitIndex (f64ofU64 (2 ^ 60 - 1))) "YB" ≠ specSizeUnit (2 ^ 60 - 1) := by
  refine ⟨by decide, by decide, by decide⟩

/-- C2 (amended): each credential cell is individually replaced atomically,
in the order access token, refresh token, expiry; a snapshot observed
during a refresh has each field equal to its old or its new value, a new
refresh token is only ever seen together with the new access token, and a
new expiry only together with the new refresh token — but the pair as a
whole is not replaced in one step (see the counterexample). -/
theorem c2_fieldwise_atomic (old new c : Creds) (hc : c ∈ refreshStates old new) :
    (c.access = old.access ∨ c.access = new.access) ∧
    (c.refresh = old.refresh ∨ c.refresh = new.refresh) ∧
    (c.expiresAt = old.expiresAt ∨ c.expiresAt = new.expiresAt) ∧
    (c.refresh ≠ old.refresh → c.access = new.access) ∧
    (c.expiresAt ≠ old.expiresAt → c.refresh = new.refresh) := by
  simp only [refreshStates, List.mem_cons, List.not_mem_nil, or_false] at hc
  rcases hc with rfl | rfl | rfl | rfl <;> simp

/-- Witness for C2's amended theorem at the snapshot between the
access-token store and the refresh-token store. -/
theorem c2_fieldwise_atomic_witness :
    ((Creds.mk "A" "r" 1).access = (Creds.mk "a" "r" 1).access ∨
      (Creds.mk "A" "r" 1).access = (Creds.mk "A" "R" 2).access) ∧
    ((Creds.mk "A" "r" 1).refresh = (Creds.mk "a" "r" 1).refresh ∨
      (Creds.mk "A" "r" 1).refresh = (Creds.mk "A" "R" 2).refresh) ∧
    ((Creds.mk "A" "r" 1).expiresAt = (Creds.mk "a" "r" 1).expiresAt ∨
      (Creds.mk "A" "r" 1).expiresAt = (Creds.mk "A" "R" 2).expiresAt) ∧
    ((Creds.mk "A" "r" 1).refresh ≠ (Creds.mk "a" "r" 1).refresh →
      (Creds.mk "A" "r" 1).access = (Creds.mk "A" "R" 2).access) ∧
    ((Creds.mk "A" "r" 1).expiresAt ≠ (Creds.mk "a" "r" 1).expiresAt →
      (Creds.mk "A" "r" 1).refresh = (Creds.mk "A" "R" 2).refresh) :=
  c2_fieldwise_atomic (Creds.mk "a" "r" 1) (Creds.mk "A" "R" 2)
    (Creds.mk "A" "r" 1) (by decide)

/-- C2 counterexample: the snapshot after the access-token store but
before the refresh-token store pairs the new access token with the old
refresh token — neither the complete pre-refresh pair nor the complete
post-refresh pair. -/
theorem c2_torn_pair_counterexample :
    Creds.mk "A" "r" 1 ∈ refreshStates (Creds.mk "a" "r" 1) (Creds.mk "A" "R" 2) ∧
    ((Creds.mk "A" "r" 1).access, (Creds.mk "A" "r" 1).refresh) ≠
      ((Creds.mk "a" "r" 1).access, (Creds.mk "a" "r" 1).refresh) ∧
    ((Creds.mk "A" "r" 1).access, (Creds.mk "A" "r" 1).refresh) ≠
      ((Creds.mk "A" "R" 2).access, (Creds.mk "A" "R" 2).refresh) := by
  refine ⟨by decide, by decide, by decide⟩

/-- C10: the first outstanding range string of a 202 response is split on
the dash and every fragment is parsed with `unwrap`: any fragment that is
not a `u64` numeral — including the empty upper fragment of the open-ended
form "start-" — makes the loop panic rather than return a typed error. -/
theorem c10_range_parse_panics :
    (∀ s : String, ∀ frag ∈ splitDash s, parseU64 frag = none → parseRanges s = none) ∧
    parseRanges "1024-" = none ∧
    (∀ (sv : Server) (fileLen size : Nat) (u : UploadSession)
       (clockIdx respIdx fuel : Nat) (r0 : String) (rest : List String),
      u.nextExpectedRanges = r0 :: rest →
      ¬ u.expiration < sv.now clockIdx →
      parseRanges r0 = none →
      sessionLoop sv fileLen size u clockIdx respIdx (fuel + 1) =
        (Res.panicked "called Result::unwrap on an Err value", [])) ∧
    (∀ e : Err, (Res.panicked "called Result::unwrap on an Err value" : Res Unit) ≠
      Res.err e) := by
  refine ⟨?_, by decide, ?_, ?_⟩
  · intro s frag hmem hfail
    exact parseFrags_none_of_mem hmem hfail
  · intro sv fileLen size u clockIdx respIdx fuel r0 rest hranges hexp hparse
    rw [sessionLoop, hranges]
    simp only [if_neg hexp]
    rw [hparse]
  · intro e
    simp

/-- Witness for C10 at the open-ended range string "1024-" with a live
session. -/
theorem c10_range_parse_panics_witness :
    parseRanges "1024-" = none ∧
    sessionLoop svComplete 0 0 (UploadSession.mk ["1024-"] 100) 0 0 1 =
      (Res.panicked "called Result::unwrap on an Err value", []) := by
  constructor
  · exact c10_range_parse_panics.1 "1024-" "" (by decide) (by decide)
  · exact c10_range_parse_panics.2.2.1 svComplete 0 0 (UploadSession.mk ["1024-"] 100)
      0 0 0 "1024-" [] rfl (by decide) (c10_range_parse_panics.1 "1024-" "" (by decide) (by decide))

theorem create_session_no_chunks (sv : Server) (folderCfg path : RustPath) :
    countChunkPuts (create_session sv folderCfg path).2 = 0 := by
  have hcalu := calu_path_reqs sv folderCfg path
  unfold create_session
  rcases hc : calu_path sv folderCfg path with ⟨res, t⟩
  rw [hc] at hcalu
  have ht : countChunkPuts t = 0 := by
    apply List.countP_eq_zero.mpr
    intro r hr
    have := hcalu r hr
    cases r <;> simp_all [isResolverReq]
  cases res with
  | ok pr =>
    rcases pr with ⟨pid, fn⟩
    simp only []
    unfold countChunkPuts at ht ⊢
    rw [List.countP_append, ht]
    rfl
  | err e => exact ht
  | panicked m => exact ht
  | timeout => exact ht

/-- C5: the session's expiration is re-checked before every chunk PUT —
before the first chunk right after session creation, and at the top of
every loop iteration before the next chunk —; a check that finds the
expiration in the past aborts with the `UploadFileSession`
"Upload session expired" error, and no chunk request is issued from that
point on (the pre-first-chunk abort has no chunk PUT in its trace, the
in-loop abort contributes an empty trace). -/
theorem c5_expiry_checked (sv : Server) (folderCfg : RustPath)
    (fileLen size : Nat) (path : RustPath) :
    (∀ (fuel : Nat) (s : FirstSession) (t0 : List Request),
      create_session sv folderCfg path = (Res.ok s, t0) →
      s.expiration < sv.now 0 →
      upload_file_with_session sv folderCfg fileLen size path fuel =
        (Res.err (Err.UploadFileSession "Upload session expired"), t0) ∧
      countChunkPuts t0 = 0) ∧
    (∀ (u : UploadSession) (clockIdx respIdx fuel : Nat)
       (r0 : String) (rest : List String),
      u.nextExpectedRanges = r0 :: rest →
      u.expiration < sv.now clockIdx →
      sessionLoop sv fileLen size u clockIdx respIdx (fuel + 1) =
        (Res.err (Err.UploadFileSession "Upload session expired"), [])) := by
  constructor
  · intro fuel s t0 hcs hexp
    constructor
    · rw [upload_file_with_session, hcs]
      simp only [if_pos hexp]
    · have := create_session_no_chunks sv folderCfg path
      rw [hcs] at this
      exact this
  · intro u clockIdx respIdx fuel r0 rest hranges hexp
    rw [sessionLoop, hranges]
    simp only [if_pos hexp]

/-- Witness for C5: a session created already expired aborts before the
first chunk, and a live loop state whose expiration has passed aborts
without sending another chunk. -/
theorem c5_expiry_checked_witness :
    (upload_file_with_session svExpired rootCfg 0 CHUNK_SIZE pathF 3 =
      (Res.err (Err.UploadFileSession "Upload session expired"),
       [Request.getFolder rootCfg, Request.createSession "rootid" "f"]) ∧
     countChunkPuts [Request.getFolder rootCfg, Request.createSession "rootid" "f"] = 0) ∧
    sessionLoop svExpired 0 0 (UploadSession.mk ["0-1"] (-5)) 4 4 3 =
      (Res.err (Err.UploadFileSession "Upload session expired"), []) := by
  constructor
  · exact (c5_expiry_checked svExpired rootCfg 0 CHUNK_SIZE pathF).1 3
      (FirstSession.mk "url" (-5))
      [Request.getFolder rootCfg, Request.createSession "rootid" "f"]
      (by decide) (by decide)
  · exact (c5_expiry_checked svExpired rootCfg 0 0 pathF).2
      (UploadSession.mk ["0-1"] (-5)) 4 4 2 "0-1" [] rfl (by decide)

/-- C6: after a 202 response, the next chunk PUT starts at the start
offset of the first range in the response's next-expected-ranges list:
the head of the iteration's request trace is a chunk PUT whose seek offset
and Content-Range start both equal that parsed start offset. -/
theorem c6_next_chunk_start (sv : Server) (fileLen size : Nat)
    (u : UploadSession) (clockIdx respIdx fuel : Nat)
    (r0 : String) (rest : List String) (start : Nat) (nums : List Nat)
    (hranges : u.nextExpectedRanges = r0 :: rest)
    (hexp : ¬ u.expiration < sv.now clockIdx)
    (hparse : parseRanges r0 = some (start :: nums)) :
    (sessionLoop sv fileLen size u clockIdx respIdx (fuel + 1)).2.head? =
      some (Request.chunkPut (mkChunkReq fileLen size start)) ∧
    (mkChunkReq fileLen size start).seekPos = start ∧
    (mkChunkReq fileLen size start).rangeStart = start := by
  refine ⟨?_, rfl, rfl⟩
  rw [sessionLoop, hranges]
  simp only [if_neg hexp]
  rw [hparse]
  cases hc : sv.chunk respIdx <;> simp [upload_session, hc]

/-- Witness for C6: a 202 state whose first outstanding range is "5-9"
makes the next chunk PUT start at offset 5. -/
theorem c6_next_chunk_start_witness :
    (sessionLoop svComplete 7 20 (UploadSession.mk ["5-9"] 100) 0 0 1).2.head? =
      some (Request.chunkPut (mkChunkReq 7 20 5)) ∧
    (mkChunkReq 7 20 5).seekPos = 5 ∧
    (mkChunkReq 7 20 5).rangeStart = 5 :=
  c6_next_chunk_start svComplete 7 20 (UploadSession.mk ["5-9"] 100) 0 0 0
    "5-9" [] 5 [9] rfl (by decide) (by decide)

/-- C1 evidence: when the very first chunk PUT after session creation
answers 201/200 (transfer complete), `upload_file_with_session` does not
return success — the source's `.ok_or(..)` on the first chunk's result
turns the completion into the `UploadFileSession` "Upload session expired"
error.  On any later chunk a 201/200 response does exit the loop with
success, and a status other than 202/201/200 is the hard
`UploadFileSessionRequest` error. -/
theorem c1_first_chunk_completed_is_error :
    svComplete.chunk 0 = ChunkResp.completed ∧
    upload svComplete rootCfg CHUNK_SIZE CHUNK_SIZE pathF 5 =
      (Res.err (Err.UploadFileSession "Upload session expired"),
       [Request.getFolder rootCfg, Request.createSession "rootid" "f",
        Request.chunkPut (mkChunkReq CHUNK_SIZE CHUNK_SIZE 0)]) ∧
    sessionLoop svComplete (2 * CHUNK_SIZE) (2 * CHUNK_SIZE)
        (UploadSession.mk ["10485760-20971519"] 100) 1 1 3 =
      (Res.ok (), [Request.chunkPut (mkChunkReq (2 * CHUNK_SIZE) (2 * CHUNK_SIZE) CHUNK_SIZE)]) ∧
    sessionLoop svBadChunk (2 * CHUNK_SIZE) (2 * CHUNK_SIZE)
        (UploadSession.mk ["10485760-20971519"] 100) 1 1 3 =
      (Res.err (Err.UploadFileSessionRequest 500),
       [Request.chunkPut (mkChunkReq (2 * CHUNK_SIZE) (2 * CHUNK_SIZE) CHUNK_SIZE)]) := by
  refine ⟨rfl, by decide, by decide, by decide⟩

/-- C8 (amended): an absolute destination path is rejected with
`InvalidPath` before any network request; a relative destination path is
joined beneath the configured root folder by appending its components, and
whenever the join has a parent and a leaf name and the parent resolves,
`calu_path` returns the split `(parent_id, leaf name)` — a join without a
leaf name (ending in `..`) or without a parent is `InvalidPath` instead
(see the counterexample). -/
theorem c8_calu_path (sv : Server) (folderCfg path : RustPath) :
    (path.hasRoot = true →
      calu_path sv folderCfg path = (Res.err (Err.InvalidPath path.render), [])) ∧
    (path.hasRoot = false →
      folderCfg.join path =
        RustPath.mk folderCfg.absolute (folderCfg.comps ++ path.comps) ∧
      (∀ (parent : RustPath) (pid fn : String) (t : List Request),
        (folderCfg.join path).parent = some parent →
        get_parent_id sv parent = (Res.ok pid, t) →
        (folderCfg.join path).fileName = some fn →
        calu_path sv folderCfg path = (Res.ok (pid, fn), t))) := by
  constructor
  · intro h
    rw [calu_path, if_pos h]
  · intro h
    constructor
    · rw [RustPath.join, if_neg]
      rw [RustPath.hasRoot] at h
      simp [h]
    · intro parent pid fn t hpar hg hfn
      rw [calu_path, if_neg (by simp [h])]
      dsimp only []
      rw [hpar]
      simp only [hg, hfn]

/-- Witness for C8: the absolute path `/x` is rejected without a request,
and the relative path `a/b` beneath the root folder `/root` is split into
the resolved parent `/root/a` and the leaf `b`. -/
theorem c8_calu_path_witness :
    calu_path svComplete (RustPath.mk true ["root"]) (RustPath.mk true ["x"]) =
      (Res.err (Err.InvalidPath (RustPath.mk true ["x"]).render), []) ∧
    calu_path svComplete (RustPath.mk true ["root"]) (RustPath.mk false ["a", "b"]) =
      (Res.ok ("rootid", "b"), [Request.getFolder (RustPath.mk true ["root", "a"])]) := by
  constructor
  · exact (c8_calu_path svComplete (RustPath.mk true ["root"])
      (RustPath.mk true ["x"])).1 rfl
  · exact ((c8_calu_path svComplete (RustPath.mk true ["root"])
      (RustPath.mk false ["a", "b"])).2 rfl).2 (RustPath.mk true ["root", "a"])
      "rootid" "b" [Request.getFolder (RustPath.mk true ["root", "a"])]
      (by decide) (by decide) (by decide)

/-- C8 counterexample: the relative destination path `..` beneath the root
folder `/root` joins to `/root/..`, whose `file_name()` is `None`, so
`calu_path` returns `InvalidPath` instead of a `(parent path, leaf name)`
split — and only after the parent lookup request has already been issued. -/
theorem c8_relative_not_split_counterexample :
    (RustPath.mk false [".."]).hasRoot = false ∧
    calu_path svComplete (RustPath.mk true ["root"]) (RustPath.mk false [".."]) =
      (Res.err (Err.InvalidPath "/root/.."),
       [Request.getFolder (RustPath.mk true ["root"])]) := by
  exact ⟨rfl, by decide⟩

/-- C7 (amended): the mutually recursive `get_parent_id`/`create_folder`
pair terminates for every input path and every server behaviour (the fuel
`2*depth + 2` is never exhausted); its total number of remote calls is
finite, bounded by `2^(depth+1) - 1` — exponential in the path depth in the
adversarial worst case, not by the depth itself (see the counterexample) —;
the root path is resolved by a drive-root lookup that issues at most one
request; and a path without a parent yields `InvalidPath` immediately with
no request rather than recursing. -/
theorem c7_resolver_termination (sv : Server) (folder : RustPath) :
    (get_parent_id sv folder).1 ≠ Res.timeout ∧
    (get_parent_id sv folder).2.length ≤ 2 ^ (folder.comps.length + 1) - 1 ∧
    (folder.comps = [] → (get_parent_id sv folder).2.length ≤ 1) ∧
    (∀ fuel : Nat, folder.comps = [] →
      create_folderF sv (fuel + 1) folder =
        (Res.err (Err.InvalidPath folder.render), [])) := by
  refine ⟨?_, ?_, ?_, ?_⟩
  · unfold get_parent_id
    exact (resolver_fuel_sufficient sv (resolverFuel folder)).1 folder (Nat.le_refl _)
  · unfold get_parent_id
    exact (resolver_trace_bound sv (resolverFuel folder)).1 folder
  · intro h
    exact root_lookup_single_request sv h
  · intro fuel h
    exact create_folderF_no_parent sv fuel h

/-- Witness for C7 at the root path on the all-404 server. -/
theorem c7_resolver_termination_witness :
    (get_parent_id svMissing rootCfg).1 ≠ Res.timeout ∧
    (get_parent_id svMissing rootCfg).2.length ≤ 2 ^ (rootCfg.comps.length + 1) - 1 ∧
    (get_parent_id svMissing rootCfg).2.length ≤ 1 ∧
    create_folderF svMissing 1 rootCfg =
      (Res.err (Err.InvalidPath rootCfg.render), []) := by
  have h := c7_resolver_termination svMissing rootCfg
  exact ⟨h.1, h.2.1, h.2.2.1 rfl, h.2.2.2 0 rfl⟩

/-- C7 counterexample: on a server where only the drive root exists and
folder creation answers 404, resolving the depth-1 path `/a` issues three
remote calls (lookup `/a`, lookup `/`, create `a`) — more than the path's
depth, even counting the root as a level. -/
theorem c7_calls_exceed_depth_counterexample :
    (get_parent_id svMissing (RustPath.mk true ["a"])).2.length = 3 ∧
    (RustPath.mk true ["a"]).comps.length = 1 ∧
    ¬ ((get_parent_id svMissing (RustPath.mk true ["a"])).2.length ≤
        (RustPath.mk true ["a"]).comps.length + 1) := by
  refine ⟨by decide, rfl, by decide⟩

theorem upload_file_counts (sv : Server) (folderCfg : RustPath) (fileLen : Nat)
    (path : RustPath) :
    countCreateSessions (upload_file sv folderCfg fileLen path).2 = 0 ∧
    countChunkPuts (upload_file sv folderCfg fileLen path).2 = 0 := by
  have hcalu := calu_path_reqs sv folderCfg path
  unfold upload_file
  rcases hc : calu_path sv folderCfg path with ⟨res, t⟩
  rw [hc] at hcalu
  have ht2 : countCreateSessions t = 0 := by
    apply List.countP_eq_zero.mpr
    intro r hr
    have := hcalu r hr
    cases r <;> simp_all [isResolverReq]
  have ht3 : countChunkPuts t = 0 := by
    apply List.countP_eq_zero.mpr
    intro r hr
    have := hcalu r hr
    cases r <;> simp_all [isResolverReq]
  cases res with
  | ok pr =>
    rcases pr with ⟨pid, fn⟩
    simp only []
    constructor
    · unfold countCreateSessions at ht2 ⊢
      rw [List.countP_append, ht2]
      rfl
    · unfold countChunkPuts at ht3 ⊢
      rw [List.countP_append, ht3]
      rfl
  | err e => exact ⟨ht2, ht3⟩
  | panicked m => exact ⟨ht2, ht3⟩
  | timeout => exact ⟨ht2, ht3⟩

theorem session_trace_prefix (sv : Server) (folderCfg : RustPath)
    (fileLen size : Nat) (path : RustPath) (fuel : Nat)
    (r1 : Res FirstSession) (t0 : List Request)
    (hcs : create_session sv folderCfg path = (r1, t0)) :
    ∃ t', (upload_file_with_session sv folderCfg fileLen size path fuel).2 =
      t0 ++ t' := by
  rw [upload_file_with_session, hcs]
  cases r1 with
  | ok s =>
    by_cases hexp : s.expiration < sv.now 0
    · exact ⟨[], by simp [hexp]⟩
    · cases hch : sv.chunk 0 with
      | accepted u =>
        exact ⟨Request.chunkPut (mkChunkReq fileLen size 0) ::
          (sessionLoop sv fileLen size u 1 1 fuel).2,
          by simp [hexp, upload_session, hch]⟩
      | acceptedBadBody =>
        exact ⟨[Request.chunkPut (mkChunkReq fileLen size 0)],
          by simp [hexp, upload_session, hch]⟩
      | completed =>
        exact ⟨[Request.chunkPut (mkChunkReq fileLen size 0)],
          by simp [hexp, upload_session, hch]⟩
      | other code =>
        exact ⟨[Request.chunkPut (mkChunkReq fileLen size 0)],
          by simp [hexp, upload_session, hch]⟩
  | err e => exact ⟨[], by simp⟩
  | panicked m => exact ⟨[], by simp⟩
  | timeout => exact ⟨[], by simp⟩

/-- C4: sizes below the 10 MiB chunk threshold take the direct path —
`upload` dispatches to `upload_file`, whose trace holds no session request
and no chunk PUT, and on successful resolution exactly one content PUT of
the whole source —; sizes from the threshold up to the maximum dispatch to
the chunked session path, which issues a `createUploadSession` request
whenever resolution succeeds, and whose loop exits successfully exactly
when the outstanding-ranges list is empty or a completion (201/200) status
arrives. -/
theorem c4_dispatch (sv : Server) (folderCfg : RustPath) (fileLen size : Nat)
    (path : RustPath) (fuel : Nat) :
    (size < CHUNK_SIZE →
      upload sv folderCfg fileLen size path fuel =
        upload_file sv folderCfg fileLen path ∧
      countCreateSessions (upload_file sv folderCfg fileLen path).2 = 0 ∧
      countChunkPuts (upload_file sv folderCfg fileLen path).2 = 0 ∧
      (∀ (pid fn : String) (t : List Request),
        calu_path sv folderCfg path = (Res.ok (pid, fn), t) →
        (upload_file sv folderCfg fileLen path).2 =
          t ++ [Request.contentPut pid fn fileLen] ∧
        countContentPuts (t ++ [Request.contentPut pid fn fileLen]) = 1)) ∧
    (CHUNK_SIZE ≤ size → size ≤ MAX_FILE_LIMIT →
      upload sv folderCfg fileLen size path fuel =
        upload_file_with_session sv folderCfg fileLen size path fuel ∧
      (∀ (pid fn : String) (t : List Request),
        calu_path sv folderCfg path = (Res.ok (pid, fn), t) →
        Request.createSession pid fn ∈
          (upload_file_with_session sv folderCfg fileLen size path fuel).2) ∧
      (∀ (u : UploadSession) (clockIdx respIdx f2 : Nat),
        u.nextExpectedRanges = [] →
        sessionLoop sv fileLen size u clockIdx respIdx (f2 + 1) = (Res.ok (), [])) ∧
      (∀ (u : UploadSession) (clockIdx respIdx f2 : Nat) (r0 : String)
         (rest : List String) (start : Nat) (nums : List Nat),
        u.nextExpectedRanges = r0 :: rest →
        ¬ u.expiration < sv.now clockIdx →
        parseRanges r0 = some (start :: nums) →
        sv.chunk respIdx = ChunkResp.completed →
        sessionLoop sv fileLen size u clockIdx respIdx (f2 + 1) =
          (Res.ok (), [Request.chunkPut (mkChunkReq fileLen size start)]))) := by
  constructor
  · intro hs
    have hM : ¬ MAX_FILE_LIMIT < size := by
      unfold CHUNK_SIZE at hs
      unfold MAX_FILE_LIMIT
      omega
    refine ⟨by rw [upload, if_neg hM, if_pos hs], (upload_file_counts sv folderCfg fileLen path).1,
      (upload_file_counts sv folderCfg fileLen path).2, ?_⟩
    intro pid fn t hcalu
    have hreqs := calu_path_reqs sv folderCfg path
    rw [hcalu] at hreqs
    constructor
    · rw [upload_file, hcalu]
    · have ht : countContentPuts t = 0 := by
        apply List.countP_eq_zero.mpr
        intro r hr
        have := hreqs r hr
        cases r <;> simp_all [isResolverReq]
      unfold countContentPuts at ht ⊢
      rw [List.countP_append, ht]
      rfl
  · intro hs hM
    refine ⟨by rw [upload, if_neg (by omega), if_neg (by omega)], ?_, ?_, ?_⟩
    · intro pid fn t hcalu
      have htrace : (create_session sv folderCfg path).2 =
          t ++ [Request.createSession pid fn] := by
        rw [create_session, hcalu]
      rcases hcs : create_session sv folderCfg path with ⟨r1, t0⟩
      rw [hcs] at htrace
      have htrace' : t0 = t ++ [Request.createSession pid fn] := by
        simpa using htrace
      obtain ⟨t', hT⟩ := session_trace_prefix sv folderCfg fileLen size path fuel r1 t0 hcs
      rw [hT, htrace']
      simp [List.mem_append]
    · intro u clockIdx respIdx f2 hempty
      rw [sessionLoop, hempty]
    · intro u clockIdx respIdx f2 r0 rest start nums hranges hexp hparse hch
      rw [sessionLoop, hranges]
      simp only [if_neg hexp]
      rw [hparse]
      simp [upload_session, hch]

/-- Witness for C4: a 5-byte upload takes the direct path with exactly one
content PUT; a 10 MiB upload dispatches to the session path, issues the
session request, and the loop exits on an empty outstanding-ranges list. -/
theorem c4_dispatch_witness :
    (upload svComplete rootCfg 5 5 pathF 1 = upload_file svComplete rootCfg 5 pathF ∧
     (upload_file svComplete rootCfg 5 pathF).2 =
       [Request.getFolder rootCfg] ++ [Request.contentPut "rootid" "f" 5] ∧
     countContentPuts ([Request.getFolder rootCfg] ++
       [Request.contentPut "rootid" "f" 5]) = 1) ∧
    (upload svComplete rootCfg CHUNK_SIZE CHUNK_SIZE pathF 1 =
       upload_file_with_session svComplete rootCfg CHUNK_SIZE CHUNK_SIZE pathF 1 ∧
     Request.createSession "rootid" "f" ∈
       (upload_file_with_session svComplete rootCfg CHUNK_SIZE CHUNK_SIZE pathF 1).2 ∧
     sessionLoop svComplete 0 0 (UploadSession.mk [] 100) 0 0 1 = (Res.ok (), [])) := by
  constructor
  · have h := (c4_dispatch svComplete rootCfg 5 5 pathF 1).1 (by decide)
    have h4 := h.2.2.2 "rootid" "f" [Request.getFolder rootCfg] (by decide)
    exact ⟨h.1, h4.1, h4.2⟩
  · have h := (c4_dispatch svComplete rootCfg CHUNK_SIZE CHUNK_SIZE pathF 1).2
      (Nat.le_refl _) (by decide)
    exact ⟨h.1, h.2.1 "rootid" "f" [Request.getFolder rootCfg] (by decide),
      h.2.2.1 (UploadSession.mk [] 100) 0 0 0 rfl⟩

end UploadBackend
